import Mathlib

/-!
# k8s-resource-tracker: pod resource monitor

A shallow embedding of `pkg/monitor/podresourcemonitor.go` and of the flag defaults of
`cmd/resource-tracker.go`, followed by the properties established about them.

Conventions of the embedding:

* a Go `map[string]string` is an association list read with first-match lookup, and the index
  expression `m[k]` yields the empty string for an absent key;
* `go f(x)` is recorded as the list of goroutines it starts;
* the endless `for { select { ... } }` of the sampler is run over a finite list of the things
  that happen while it is running, so every finite stretch of its execution is a total function;
* the gauge sink is the sequence of `Set` calls made so far, the value of a series being that of
  the last call on it;
* the value of a sample is the `int64` handed to `float64(...)`.
-/

set_option autoImplicit false

namespace Monitor

/-! ## Data model -/

/-- Pod labels, a Go `map[string]string`. -/
abbrev Labels := List (String × String)

/-- The Go index expression `m[k]`: the value stored under `k`, the zero value `""` when the key
is absent (also on a nil map). -/
def Labels.index (m : Labels) (k : String) : String :=
  (m.lookup k).getD ""

/-- The `resource.Quantity` of k8s.io/apimachinery (a dependency, not part of the repository's
sources), in its two representations: `i int64Amount` (`value * 10^scale`) when `d.Dec == nil`,
and the arbitrary-precision `d infDecAmount` otherwise. -/
inductive Quantity where
  | int64Amount (value : Int) (scale : Int)
  | infDec (unscaled : Int) (scale : Int)
  deriving DecidableEq, Repr

/-- The smallest `int64`. -/
def mostNegative : Int := -(2 ^ 63)

/-- Two's-complement wrap of an integer into the `int64` range. -/
def wrapInt64 (x : Int) : Int :=
  (x + 2 ^ 63) % 2 ^ 64 - 2 ^ 63

/-- The dependency's `int64MultiplyScale(a, b)`: `a*b` for `b > 1`, with `false` when the product
leaves the `int64` range. -/
def int64MultiplyScale (a b : Int) : Int × Bool :=
  if a = 0 ∨ a = 1 then (wrapInt64 (a * b), true)
  else if a = mostNegative ∧ b ≠ 1 then (0, false)
  else (wrapInt64 (a * b), decide (Int.tdiv (wrapInt64 (a * b)) b = a))

/-- The `default:` loop of the dependency's `positiveScaleInt64`: multiply by ten `n` times,
giving `(0, false)` at the first overflow. -/
def scaleLoop : Nat → Int → Int × Bool
  | 0, value => (value, true)
  | n + 1, value =>
    match int64MultiplyScale value 10 with
    | (next, true) => scaleLoop n next
    | (_, false) => (0, false)

/-- The dependency's `positiveScaleInt64(base, scale)`: `base * 10^scale` for `scale ≥ 0`. -/
def positiveScaleInt64 (base scale : Int) : Int × Bool :=
  if scale = 0 then (base, true)
  else if scale = 1 then int64MultiplyScale base 10
  else if scale = 2 then int64MultiplyScale base 100
  else if scale = 3 then int64MultiplyScale base 1000
  else if scale = 6 then int64MultiplyScale base 1000000
  else if scale = 9 then int64MultiplyScale base 1000000000
  else scaleLoop scale.toNat base

/-- The dependency's `Quantity.AsInt64()`: the value as an `int64` at scale 0 together with a
flag that is `false` when the value is held as `inf.Dec`, has a negative scale, or overflows;
in the first two cases the integer returned is 0. -/
def Quantity.AsInt64 : Quantity → Int × Bool
  | .infDec _ _ => (0, false)
  | .int64Amount value scale =>
    if scale = 0 then (value, true)
    else if scale < 0 then (0, false)
    else positiveScaleInt64 value scale

/-- The rational number a quantity denotes. -/
def Quantity.toRat : Quantity → ℚ
  | .int64Amount value scale => (value : ℚ) * (10 : ℚ) ^ scale
  | .infDec unscaled scale => (unscaled : ℚ) * (10 : ℚ) ^ (-scale)

/-- Truncation of a quantity to an integer (toward zero), the policy the specification words. -/
def Quantity.truncated (q : Quantity) : Int :=
  if 0 ≤ q.toRat then ⌊q.toRat⌋ else ⌈q.toRat⌉

/-- A `coreV1.ResourceList` as far as the monitor reads it: the `cpu` and `memory` entries. -/
structure ResourceList where
  cpu : Option Quantity
  memory : Option Quantity
  deriving DecidableEq, Repr

/-- The method `ResourceList.Cpu()`: the `cpu` entry, the zero quantity when there is none. -/
def ResourceList.Cpu (rl : ResourceList) : Quantity :=
  rl.cpu.getD (.int64Amount 0 0)

/-- The method `ResourceList.Memory()`: the `memory` entry, the zero quantity when there is none. -/
def ResourceList.Memory (rl : ResourceList) : Quantity :=
  rl.memory.getD (.int64Amount 0 0)

/-- A `coreV1.Container`: `Name` and `Resources.Requests`. -/
structure Container where
  Name : String
  Requests : ResourceList
  deriving DecidableEq, Repr

/-- A `coreV1.Pod`: `ObjectMeta.Name`, `ObjectMeta.Namespace`, `ObjectMeta.Labels`,
`Spec.Containers` and `Status.Phase`. -/
structure Pod where
  Name : String
  Namespace : String
  Labels : Labels
  Containers : List Container
  Phase : String
  deriving DecidableEq, Repr

/-- The configuration fields of `PodResourceMonitor`. -/
structure PodResourceMonitor where
  Namespace : String
  PodLabel : String
  deriving DecidableEq, Repr

/-- The constructor `New(clientset, namespace, podLabel)`, without the client and the gauges. -/
def New (ns podLabel : String) : PodResourceMonitor :=
  { Namespace := ns, PodLabel := podLabel }

/-- Default of the `namespace` flag in `cmd/resource-tracker.go`. -/
def defaultNamespace : String := "default"

/-- Default of the `pod-label` flag in `cmd/resource-tracker.go`. -/
def defaultPodLabel : String := ""

/-! ## The event handler -/

/-- The method `CustomResourceEventHandler.OnAdd`: the goroutines it starts, one
`monitorPodResourceUsage(pod)` when the filter is empty or the pod carries a non-empty value
under the key `PodLabel`, none otherwise. -/
def OnAdd (prm : PodResourceMonitor) (pod : Pod) : List Pod :=
  if prm.PodLabel = "" ∨ pod.Labels.index prm.PodLabel ≠ "" then [pod] else []

/-- A run of `OnAdd` calls: the sampler goroutines alive afterwards, given those alive before.
Nothing in the package ends a sampler, so the list only grows. -/
def onAddAll (prm : PodResourceMonitor) (running : List Pod) : List Pod → List Pod
  | [] => running
  | pod :: rest => onAddAll prm (running ++ OnAdd prm pod) rest

/-- The number of live samplers for the identity `(namespace, name)`. -/
def liveSamplers (running : List Pod) (ns name : String) : Nat :=
  (running.filter (fun p => p.Namespace = ns ∧ p.Name = name)).length

/-! ## The label filter as the specification words it -/

/-- The label filter of the specification: a required key, or a required `key=value` pair. -/
inductive SpecLabelFilter where
  | present (key : String)
  | equals (key value : String)
  deriving DecidableEq, Repr

/-- The text of a filter, as passed in the `pod-label` flag: `key`, or `key=value`. -/
def SpecLabelFilter.expr : SpecLabelFilter → String
  | .present key => key
  | .equals key value => key ++ "=" ++ value

/-- Satisfaction of a filter by a label set, in the specification's words: the key is present,
or the key is mapped to the value. -/
def SpecLabelFilter.satisfiedBy : SpecLabelFilter → Labels → Bool
  | .present key, labels => (labels.lookup key).isSome
  | .equals key value, labels => labels.lookup key == some value

/-- Label keys as an API server admits them, as far as the filter can tell: no key holds the
character `=`. The validation itself belongs to the API server, not to the repository; it
allows letters, digits, `-`, `_`, `.` and one `/` in a key. -/
def legalLabelKeys (labels : Labels) : Bool :=
  labels.all (fun kv => decide ('=' ∉ kv.1.data))

/-! ## The sampler -/

/-- The two gauges declared by `New`. -/
inductive Metric where
  | pod_cpu_usage
  | pod_memory_usage
  deriving DecidableEq, Repr

/-- One `WithLabelValues(...).Set(...)` call on a gauge. -/
structure Sample where
  metric : Metric
  labelValues : List String
  value : Int
  deriving DecidableEq, Repr

/-- A line handed to the `log` package. -/
inductive LogEntry where
  | error (err : String)
  | usage (podName containerName : String) (cpu memory : Quantity)
  deriving DecidableEq, Repr

/-- What a sampler goroutine has done so far: its `Set` calls and its log lines, oldest first. -/
structure SamplerState where
  writes : List Sample
  logged : List LogEntry
  deriving DecidableEq, Repr

/-- The value a series holds after a sequence of `Set` calls: that of the last call on it. -/
def gaugeValue (writes : List Sample) (metric : Metric) (labelValues : List String) :
    Option Int :=
  (writes.reverse.find? (fun w => w.metric = metric ∧ w.labelValues = labelValues)).map
    Sample.value

/-- The API server at one moment, as `clientset.CoreV1().Pods(namespace).Get(ctx, name, ...)`
sees it. -/
structure Clientset where
  Get : String → String → Except String Pod

/-- The body of `for _, container := range pod.Spec.Containers` for one container: two `Set`
calls and one log line. The second result of `AsInt64` is dropped, as in
`cpuUsage, _ := container.Resources.Requests.Cpu().AsInt64()`. -/
def sampleContainer (prm : PodResourceMonitor) (pod : Pod) (s : SamplerState)
    (container : Container) : SamplerState :=
  let cpuUsage := container.Requests.Cpu.AsInt64.1
  let memory := container.Requests.Memory.AsInt64.1
  { writes := s.writes ++
      [ { metric := .pod_cpu_usage,
          labelValues := [prm.Namespace, pod.Name, container.Name], value := cpuUsage },
        { metric := .pod_memory_usage,
          labelValues := [prm.Namespace, pod.Name, container.Name], value := memory } ],
    logged := s.logged ++
      [.usage pod.Name container.Name container.Requests.Cpu container.Requests.Memory] }

/-- The `case <-ticker.C:` branch of `monitorPodResourceUsage`: fetch the pod by the name the
goroutine was started with; on an error log it and `continue`, otherwise sample each container
of the fetched pod in order. -/
def onTick (prm : PodResourceMonitor) (pod : Pod) (clientset : Clientset) (s : SamplerState) :
    SamplerState :=
  match clientset.Get prm.Namespace pod.Name with
  | .error err => { s with logged := s.logged ++ [.error err] }
  | .ok fetched => fetched.Containers.foldl (sampleContainer prm fetched) s

/-- What can happen while a sampler goroutine is running. -/
inductive Happening where
  /-- a value arrives on `ticker.C`; the API server is then in the given state -/
  | tickerFired (clientset : Clientset)
  /-- the channel `prm.stopCh` is closed -/
  | stopChClosed
  /-- the directory reports the pod deleted -/
  | podDeleted

/-- Whether the happening is a tick. -/
def Happening.isTick : Happening → Bool
  | .tickerFired _ => true
  | _ => false

/-- The loop `for { select { case <-ticker.C: ... } }` of `monitorPodResourceUsage` over the
things that happen while it runs. The `select` has the single case `<-ticker.C`: nothing else
wakes the goroutine, and the loop has no `return` or `break`. -/
def monitorPodResourceUsage (prm : PodResourceMonitor) (pod : Pod) :
    List Happening → SamplerState → SamplerState
  | [], s => s
  | .tickerFired clientset :: rest, s =>
    monitorPodResourceUsage prm pod rest (onTick prm pod clientset s)
  | .stopChClosed :: rest, s => monitorPodResourceUsage prm pod rest s
  | .podDeleted :: rest, s => monitorPodResourceUsage prm pod rest s

/-- The samples one successful tick writes for a fetched pod: per container, in order, the cpu
sample then the memory sample. -/
def samplesOf (prm : PodResourceMonitor) (fetched : Pod) : List Sample :=
  fetched.Containers.flatMap (fun container =>
    [ { metric := .pod_cpu_usage,
        labelValues := [prm.Namespace, fetched.Name, container.Name],
        value := container.Requests.Cpu.AsInt64.1 },
      { metric := .pod_memory_usage,
        labelValues := [prm.Namespace, fetched.Name, container.Name],
        value := container.Requests.Memory.AsInt64.1 } ])

/-! ## The coordinator -/

/-- The `cache.SharedInformer` of client-go (a dependency), as far as `Run` touches it: the
handlers registered through `AddEventHandler`, each given by what its `OnAdd` starts. -/
structure SharedInformer where
  handlers : List (Pod → List Pod)

/-- The call `cache.NewSharedInformer(listWatcher, pod type, 0)`: an informer without
handlers. -/
def NewSharedInformer : SharedInformer :=
  { handlers := [] }

/-- The call `informer.AddEventHandler(handler)`. -/
def SharedInformer.AddEventHandler (informer : SharedInformer) (handler : Pod → List Pod) :
    SharedInformer :=
  { handlers := informer.handlers ++ [handler] }

/-- The call `informer.Run(stopCh)`: every pod of the initial list, in list order, then every
pod the watch reports as added, is notified to every registered handler; the result is the goroutines
the handlers start. -/
def SharedInformer.Run (informer : SharedInformer) (listed watchAdded : List Pod) : List Pod :=
  (listed ++ watchAdded).flatMap (fun pod => informer.handlers.flatMap (fun handler => handler pod))

/-- The method `PodResourceMonitor.Run`: build the list-watch, create the informer, start it.
No handler is registered between `NewSharedInformer` and `informer.Run`. The result is the sampler goroutines
started. -/
def PodResourceMonitor.Run (_prm : PodResourceMonitor) (listed watchAdded : List Pod) :
    List Pod :=
  let informer := NewSharedInformer
  informer.Run listed watchAdded

/-! ## Concrete inputs -/

/-- The pod of the test case "Matching Pod Label". -/
def matchingPod : Pod :=
  { Name := "test-pod", Namespace := "", Labels := [("app", "myapp")], Containers := [],
    Phase := "" }

/-- The pod of the test case "Non-Matching Pod Label". -/
def nonMatchingPod : Pod :=
  { Name := "test-pod", Namespace := "", Labels := [("app", "otherapp")], Containers := [],
    Phase := "" }

/-- A pod whose only label has the whole text `app=myapp` as its key. -/
def oddKeyPod : Pod :=
  { Name := "test-pod", Namespace := "", Labels := [("app=myapp", "x")], Containers := [],
    Phase := "" }

/-- A pod whose label `app` has the empty value. -/
def emptyValuePod : Pod :=
  { Name := "test-pod", Namespace := "default", Labels := [("app", "")], Containers := [],
    Phase := "Running" }

/-- The pod `emptyValuePod` under another name, namespace and phase, labels unchanged. -/
def relabelledPod : Pod :=
  { emptyValuePod with Name := "other", Namespace := "kube-system", Phase := "Failed" }

/-- A pod with one container asking for 1500m of cpu and 64Mi of memory. -/
def fractionalPod : Pod :=
  { Name := "pod-1", Namespace := "default", Labels := [("app", "myapp")],
    Containers := [{ Name := "c1",
                     Requests := { cpu := some (.int64Amount 1500 (-3)),
                                   memory := some (.int64Amount 67108864 0) } }],
    Phase := "Running" }

/-- An API server that returns `fractionalPod` for every `Get`. -/
def servingClientset : Clientset :=
  { Get := fun _ _ => .ok fractionalPod }

/-- An API server whose every `Get` fails. -/
def failingClientset : Clientset :=
  { Get := fun _ name => .error ("pod not found: " ++ name) }

/-- A sampler that has done nothing yet. -/
def freshSampler : SamplerState :=
  { writes := [], logged := [] }

/-- The pod `pod-1` of the test `TestPodResourceMonitor_Run`, which carries no labels. -/
def listedPod : Pod :=
  { Name := "pod-1", Namespace := "default", Labels := [],
    Containers := [{ Name := "container-1", Requests := { cpu := none, memory := none } }],
    Phase := "Running" }

/-! ## Lemmas on the model -/

theorem index_ne_empty_iff (m : Labels) (k : String) :
    m.index k ≠ "" ↔ ∃ v, m.lookup k = some v ∧ v ≠ "" := by
  unfold Labels.index
  cases h : m.lookup k <;> simp

theorem OnAdd_eq_singleton_iff (prm : PodResourceMonitor) (pod : Pod) :
    OnAdd prm pod = [pod] ↔ (prm.PodLabel = "" ∨ pod.Labels.index prm.PodLabel ≠ "") := by
  unfold OnAdd
  split <;> simp_all

theorem OnAdd_eq_nil_iff (prm : PodResourceMonitor) (pod : Pod) :
    OnAdd prm pod = [] ↔ ¬ (prm.PodLabel = "" ∨ pod.Labels.index prm.PodLabel ≠ "") := by
  unfold OnAdd
  split <;> simp_all

/-- C1: with the filter `app=myapp` the pod labelled app: myapp satisfies the filter as the
specification words it, yet `OnAdd` starts no sampler for it. -/
theorem OnAdd_keyValue_filter_misses_matching_pod :
    (SpecLabelFilter.equals "app" "myapp").expr = "app=myapp" ∧
    (SpecLabelFilter.equals "app" "myapp").satisfiedBy matchingPod.Labels = true ∧
    OnAdd (New "default" "app=myapp") matchingPod = [] := by
  decide

theorem lookup_some_mem (labels : Labels) (k v : String) (h : labels.lookup k = some v) :
    (k, v) ∈ labels := by
  induction labels with
  | nil => simp at h
  | cons kv rest ih =>
    obtain ⟨k0, v0⟩ := kv
    by_cases hk : k = k0
    · subst hk
      simp [List.lookup] at h
      simp [h]
    · have hb : (k == k0) = false := by simpa using hk
      simp only [List.lookup, hb] at h
      exact List.mem_cons_of_mem _ (ih h)

theorem lookup_expr_equals_none (labels : Labels) (key value : String)
    (hlegal : legalLabelKeys labels = true) :
    labels.lookup (SpecLabelFilter.equals key value).expr = none := by
  cases hl : labels.lookup (SpecLabelFilter.equals key value).expr with
  | none => rfl
  | some v =>
    exfalso
    have hm := lookup_some_mem labels _ v hl
    have hk := (List.all_eq_true.mp hlegal) _ hm
    simp [SpecLabelFilter.expr] at hk

/-- C2: for a non-empty filter, a required key or a required key=value pair, and a pod with
legal label keys whose label set does not satisfy the filter, `OnAdd` on a monitor configured
with the text of the filter starts no sampler. -/
theorem OnAdd_unsatisfied_starts_none (ns : String) (filter : SpecLabelFilter) (pod : Pod)
    (hfilter : filter.expr ≠ "") (hlegal : legalLabelKeys pod.Labels = true)
    (hunsat : filter.satisfiedBy pod.Labels = false) :
    OnAdd (New ns filter.expr) pod = [] := by
  rw [OnAdd_eq_nil_iff, index_ne_empty_iff]
  have hnone : pod.Labels.lookup filter.expr = none := by
    cases filter with
    | present key =>
      simpa [SpecLabelFilter.satisfiedBy, SpecLabelFilter.expr] using hunsat
    | equals key value => exact lookup_expr_equals_none pod.Labels key value hlegal
  simp only [New, hnone]
  simp [hfilter]

/-- Instance for C2: under the filter `app=myapp` the pod labelled app: otherapp, and under the
required key `tier` the pod labelled app: myapp, get no sampler. -/
theorem OnAdd_unsatisfied_starts_none_witness :
    OnAdd (New "default" "app=myapp") nonMatchingPod = [] ∧
    OnAdd (New "default" "tier") matchingPod = [] :=
  ⟨OnAdd_unsatisfied_starts_none "default" (.equals "app" "myapp") nonMatchingPod
      (by decide) (by decide) (by decide),
   OnAdd_unsatisfied_starts_none "default" (.present "tier") matchingPod
      (by decide) (by decide) (by decide)⟩

/-- Legality of the label keys is needed: a pod whose only label has the whole text
`app=myapp` as its key lacks the pair app: myapp, and `OnAdd` starts a sampler for it. -/
theorem OnAdd_illegal_key_sampled :
    legalLabelKeys oddKeyPod.Labels = false ∧
    (SpecLabelFilter.equals "app" "myapp").satisfiedBy oddKeyPod.Labels = false ∧
    OnAdd (New "default" (SpecLabelFilter.equals "app" "myapp").expr) oddKeyPod = [oddKeyPod] := by
  decide

/-- C9: with the empty filter, the default of the `pod-label` flag, `OnAdd` starts a sampler
for every pod, whatever its labels. -/
theorem OnAdd_empty_filter (ns : String) (pod : Pod) :
    defaultPodLabel = "" ∧ OnAdd (New ns defaultPodLabel) pod = [pod] ∧
    OnAdd (New ns "") listedPod = [listedPod] := by
  refine ⟨rfl, ?_, ?_⟩ <;> simp [OnAdd, New, defaultPodLabel]

/-- C10: `OnAdd` starts a sampler for a pod exactly when the filter is empty or the pod's label
set holds a non-empty value under the key equal to the whole filter string, and starts none
otherwise; pods with equal label sets get the same decision; a label with that key and the empty
value does not match a non-empty filter. -/
theorem OnAdd_iff (prm : PodResourceMonitor) (pod : Pod) :
    (OnAdd prm pod = [pod] ↔
      (prm.PodLabel = "" ∨ ∃ v, pod.Labels.lookup prm.PodLabel = some v ∧ v ≠ "")) ∧
    (OnAdd prm pod = [] ↔
      ¬ (prm.PodLabel = "" ∨ ∃ v, pod.Labels.lookup prm.PodLabel = some v ∧ v ≠ "")) ∧
    (∀ other : Pod, other.Labels = pod.Labels →
      (OnAdd prm other = [other] ↔ OnAdd prm pod = [pod])) ∧
    (prm.PodLabel ≠ "" → pod.Labels.lookup prm.PodLabel = some "" → OnAdd prm pod = []) := by
  refine ⟨?_, ?_, ?_, ?_⟩
  · rw [OnAdd_eq_singleton_iff, index_ne_empty_iff]
  · rw [OnAdd_eq_nil_iff, index_ne_empty_iff]
  · intro other h
    rw [OnAdd_eq_singleton_iff, OnAdd_eq_singleton_iff, h]
  · intro hf hl
    rw [OnAdd_eq_nil_iff, index_ne_empty_iff]
    simp [hf, hl]

/-- Instance for C10: under the filter `app` a pod labelled with app and the empty value
gets no sampler, and a pod of another name, namespace and phase with the same labels neither. -/
theorem OnAdd_iff_witness :
    OnAdd (New "default" "app") emptyValuePod = [] ∧
    (OnAdd (New "default" "app") relabelledPod =
        [relabelledPod] ↔
      OnAdd (New "default" "app") emptyValuePod = [emptyValuePod]) :=
  ⟨(OnAdd_iff (New "default" "app") emptyValuePod).2.2.2 (by decide) (by decide),
   (OnAdd_iff (New "default" "app") emptyValuePod).2.2.1 _ rfl⟩

theorem foldl_sampleContainer_writes (prm : PodResourceMonitor) (fetched : Pod)
    (containers : List Container) (s : SamplerState) :
    (containers.foldl (sampleContainer prm fetched) s).writes =
      s.writes ++ containers.flatMap (fun container =>
        [ { metric := .pod_cpu_usage,
            labelValues := [prm.Namespace, fetched.Name, container.Name],
            value := container.Requests.Cpu.AsInt64.1 },
          { metric := .pod_memory_usage,
            labelValues := [prm.Namespace, fetched.Name, container.Name],
            value := container.Requests.Memory.AsInt64.1 } ]) := by
  induction containers generalizing s with
  | nil => simp
  | cons c cs ih => simp [List.foldl_cons, ih, sampleContainer, List.flatMap_cons]

theorem onTick_ok_writes (prm : PodResourceMonitor) (pod fetched : Pod) (clientset : Clientset)
    (s : SamplerState) (h : clientset.Get prm.Namespace pod.Name = .ok fetched) :
    (onTick prm pod clientset s).writes = s.writes ++ samplesOf prm fetched := by
  unfold onTick samplesOf
  rw [h]
  exact foldl_sampleContainer_writes prm fetched fetched.Containers s

theorem onTick_error_eq (prm : PodResourceMonitor) (pod : Pod) (clientset : Clientset)
    (s : SamplerState) (err : String) (h : clientset.Get prm.Namespace pod.Name = .error err) :
    onTick prm pod clientset s = { s with logged := s.logged ++ [.error err] } := by
  unfold onTick
  rw [h]

theorem onTick_writes_congr (prm : PodResourceMonitor) (pod : Pod) (clientset : Clientset)
    (s t : SamplerState) (h : s.writes = t.writes) :
    (onTick prm pod clientset s).writes = (onTick prm pod clientset t).writes := by
  unfold onTick
  cases clientset.Get prm.Namespace pod.Name with
  | error err => simpa using h
  | ok fetched =>
    simp only [foldl_sampleContainer_writes, h]

theorem monitor_writes_congr (prm : PodResourceMonitor) (pod : Pod) (hs : List Happening)
    (s t : SamplerState) (h : s.writes = t.writes) :
    (monitorPodResourceUsage prm pod hs s).writes =
      (monitorPodResourceUsage prm pod hs t).writes := by
  induction hs generalizing s t with
  | nil => simpa [monitorPodResourceUsage] using h
  | cons e rest ih =>
    cases e with
    | tickerFired clientset =>
      simp only [monitorPodResourceUsage]
      exact ih _ _ (onTick_writes_congr prm pod clientset s t h)
    | stopChClosed => simpa [monitorPodResourceUsage] using ih s t h
    | podDeleted => simpa [monitorPodResourceUsage] using ih s t h

theorem monitor_append (prm : PodResourceMonitor) (pod : Pod) (hs more : List Happening)
    (s : SamplerState) :
    monitorPodResourceUsage prm pod (hs ++ more) s =
      monitorPodResourceUsage prm pod more (monitorPodResourceUsage prm pod hs s) := by
  induction hs generalizing s with
  | nil => simp [monitorPodResourceUsage]
  | cons e rest ih => cases e <;> simp [monitorPodResourceUsage, ih]

theorem monitor_filter_isTick (prm : PodResourceMonitor) (pod : Pod) (hs : List Happening)
    (s : SamplerState) :
    monitorPodResourceUsage prm pod hs s =
      monitorPodResourceUsage prm pod (hs.filter Happening.isTick) s := by
  induction hs generalizing s with
  | nil => simp
  | cons e rest ih =>
    cases e <;> simp [monitorPodResourceUsage, Happening.isTick, List.filter_cons, ih]

theorem samplesOf_length (prm : PodResourceMonitor) (fetched : Pod) :
    (samplesOf prm fetched).length = 2 * fetched.Containers.length := by
  unfold samplesOf
  induction fetched.Containers with
  | nil => simp
  | cons c cs ih => simp [List.flatMap_cons, ih]; omega

theorem flatMap_pair_getElem? {α β : Type} (f g : α → β) (l : List α) (i : Nat) :
    (l.flatMap (fun a => [f a, g a]))[2 * i]? = l[i]?.map f ∧
    (l.flatMap (fun a => [f a, g a]))[2 * i + 1]? = l[i]?.map g := by
  induction l generalizing i with
  | nil => simp
  | cons a as ih =>
    cases i with
    | zero => simp [List.flatMap_cons]
    | succ j =>
      have h1 : 2 * (j + 1) = 2 * j + 1 + 1 := by omega
      have h2 : 2 * (j + 1) + 1 = 2 * j + 1 + 1 + 1 := by omega
      simp only [List.flatMap_cons, h1, h2, List.cons_append, List.nil_append,
        List.getElem?_cons_succ]
      exact ih j

/-- C3: on a tick whose fetch succeeds the sampler appends, for each container of the fetched
pod in order, the cpu sample then the memory sample, both labelled (monitor namespace, fetched
pod name, container name): twice as many samples as containers, and none under other labels. -/
theorem sampler_tick_ok (prm : PodResourceMonitor) (pod fetched : Pod) (clientset : Clientset)
    (s : SamplerState) (h : clientset.Get prm.Namespace pod.Name = .ok fetched) :
    (onTick prm pod clientset s).writes = s.writes ++ samplesOf prm fetched ∧
    (samplesOf prm fetched).length = 2 * fetched.Containers.length ∧
    (∀ i container, fetched.Containers[i]? = some container →
      (samplesOf prm fetched)[2 * i]? = some
        { metric := .pod_cpu_usage,
          labelValues := [prm.Namespace, fetched.Name, container.Name],
          value := container.Requests.Cpu.AsInt64.1 } ∧
      (samplesOf prm fetched)[2 * i + 1]? = some
        { metric := .pod_memory_usage,
          labelValues := [prm.Namespace, fetched.Name, container.Name],
          value := container.Requests.Memory.AsInt64.1 }) ∧
    (∀ w ∈ samplesOf prm fetched, ∃ container ∈ fetched.Containers,
      w.labelValues = [prm.Namespace, fetched.Name, container.Name]) := by
  refine ⟨onTick_ok_writes prm pod fetched clientset s h, samplesOf_length prm fetched, ?_, ?_⟩
  · intro i container hi
    have hp := flatMap_pair_getElem?
      (fun container : Container =>
        ({ metric := .pod_cpu_usage,
           labelValues := [prm.Namespace, fetched.Name, container.Name],
           value := container.Requests.Cpu.AsInt64.1 } : Sample))
      (fun container : Container =>
        ({ metric := .pod_memory_usage,
           labelValues := [prm.Namespace, fetched.Name, container.Name],
           value := container.Requests.Memory.AsInt64.1 } : Sample))
      fetched.Containers i
    unfold samplesOf
    rw [hp.1, hp.2, hi]
    exact ⟨rfl, rfl⟩
  · intro w hw
    unfold samplesOf at hw
    rw [List.mem_flatMap] at hw
    obtain ⟨container, hc, hw⟩ := hw
    refine ⟨container, hc, ?_⟩
    simp only [List.mem_cons, List.mem_singleton, List.not_mem_nil, or_false] at hw
    rcases hw with hw | hw <;> rw [hw]

/-- Instance for C3: a tick served with `fractionalPod` writes its two samples. -/
theorem sampler_tick_ok_witness :
    (onTick (New "default" "") listedPod servingClientset freshSampler).writes =
      freshSampler.writes ++ samplesOf (New "default" "") fractionalPod ∧
    (samplesOf (New "default" "") fractionalPod).length = 2 * fractionalPod.Containers.length :=
  ⟨(sampler_tick_ok (New "default" "") listedPod fractionalPod servingClientset freshSampler rfl).1,
   (sampler_tick_ok (New "default" "") listedPod fractionalPod servingClientset freshSampler rfl).2.1⟩

/-- C4: on a tick whose fetch fails the sampler logs the error and does nothing else: no `Set`
call is made, every series keeps its value, and the loop goes on to the remaining happenings
from that state, writing what it would have written without the failed tick. -/
theorem sampler_tick_error (prm : PodResourceMonitor) (pod : Pod) (clientset : Clientset)
    (s : SamplerState) (err : String)
    (h : clientset.Get prm.Namespace pod.Name = .error err) :
    onTick prm pod clientset s = { s with logged := s.logged ++ [.error err] } ∧
    (onTick prm pod clientset s).writes = s.writes ∧
    (∀ metric labelValues,
      gaugeValue (onTick prm pod clientset s).writes metric labelValues =
        gaugeValue s.writes metric labelValues) ∧
    (∀ rest,
      monitorPodResourceUsage prm pod (.tickerFired clientset :: rest) s =
        monitorPodResourceUsage prm pod rest { s with logged := s.logged ++ [.error err] }) ∧
    (∀ rest,
      (monitorPodResourceUsage prm pod (.tickerFired clientset :: rest) s).writes =
        (monitorPodResourceUsage prm pod rest s).writes) := by
  have he := onTick_error_eq prm pod clientset s err h
  refine ⟨he, by rw [he], ?_, ?_, ?_⟩
  · intro metric labelValues
    rw [he]
  · intro rest
    simp only [monitorPodResourceUsage, he]
  · intro rest
    simp only [monitorPodResourceUsage]
    apply monitor_writes_congr
    rw [he]

/-- Instance for C4: after a failed tick a served tick writes the same samples as
without the failed one. -/
theorem sampler_tick_error_witness :
    (monitorPodResourceUsage (New "default" "") listedPod
        [.tickerFired failingClientset, .tickerFired servingClientset] freshSampler).writes =
      (monitorPodResourceUsage (New "default" "") listedPod
        [.tickerFired servingClientset] freshSampler).writes :=
  (sampler_tick_error (New "default" "") listedPod failingClientset freshSampler
    ("pod not found: " ++ "pod-1") rfl).2.2.2.2 [.tickerFired servingClientset]

/-- C5: for the container asking 1500m of cpu and 64Mi of memory the sampler writes 0 as the cpu
value, not the truncation 1, and 67108864 as the memory value; `AsInt64` reports the cpu
conversion as failed and the sampler drops the flag. -/
theorem onTick_fractional_cpu_written_as_zero :
    (onTick (New "default" "") fractionalPod servingClientset freshSampler).writes =
      [ { metric := .pod_cpu_usage, labelValues := ["default", "pod-1", "c1"], value := 0 },
        { metric := .pod_memory_usage, labelValues := ["default", "pod-1", "c1"],
          value := 67108864 } ] ∧
    (Quantity.int64Amount 1500 (-3)).AsInt64 = (0, false) ∧
    (Quantity.int64Amount 1500 (-3)).truncated = 1 ∧
    (Quantity.int64Amount 67108864 0).truncated = 67108864 := by
  refine ⟨by decide, by decide, ?_, ?_⟩
  · simp [Quantity.truncated, Quantity.toRat]
    norm_num
  · simp [Quantity.truncated, Quantity.toRat]

theorem liveSamplers_append (running more : List Pod) (ns name : String) :
    liveSamplers (running ++ more) ns name =
      liveSamplers running ns name + liveSamplers more ns name := by
  simp [liveSamplers, List.filter_append]

theorem onAddAll_eq (prm : PodResourceMonitor) (running pods : List Pod) :
    onAddAll prm running pods = running ++ pods.flatMap (OnAdd prm) := by
  induction pods generalizing running with
  | nil => simp [onAddAll]
  | cons p rest ih => simp [onAddAll, ih, List.flatMap_cons]

theorem liveSamplers_flatMap_OnAdd (prm : PodResourceMonitor) (pods : List Pod)
    (ns name : String) :
    liveSamplers (pods.flatMap (OnAdd prm)) ns name =
      (pods.filter (fun p => (p.Namespace = ns ∧ p.Name = name) ∧
        (prm.PodLabel = "" ∨ p.Labels.index prm.PodLabel ≠ ""))).length := by
  induction pods with
  | nil => simp [liveSamplers]
  | cons p rest ih =>
    rw [List.flatMap_cons, liveSamplers_append, ih]
    by_cases hc : prm.PodLabel = "" ∨ p.Labels.index prm.PodLabel ≠ ""
    · by_cases hi : p.Namespace = ns ∧ p.Name = name
      · simp [liveSamplers, OnAdd, hc, hi, List.filter_cons]
        omega
      · simp [liveSamplers, OnAdd, hc, hi, List.filter_cons]
    · simp [liveSamplers, OnAdd, hc, List.filter_cons]

/-- C6, as stated, fails: two `OnAdd` events for the same pod leave two live samplers for its
identity. -/
theorem OnAdd_duplicate_starts_second_sampler :
    ¬ (∀ (prm : PodResourceMonitor) (pods : List Pod) (ns name : String),
        liveSamplers (onAddAll prm [] pods) ns name ≤ 1) := by
  intro h
  have h2 := h (New "default" "") [listedPod, listedPod] "default" "pod-1"
  revert h2
  decide

/-- C6, amended: every `OnAdd` call for a pod that passes the filter starts one more sampler,
whether or not one is already running for that identity; the live samplers of an identity are
those running before plus one per passing `OnAdd` event for it. -/
theorem OnAdd_not_idempotent (prm : PodResourceMonitor) (running pods : List Pod)
    (ns name : String) :
    liveSamplers (onAddAll prm running pods) ns name =
      liveSamplers running ns name +
        (pods.filter (fun p => (p.Namespace = ns ∧ p.Name = name) ∧
          (prm.PodLabel = "" ∨ p.Labels.index prm.PodLabel ≠ ""))).length := by
  rw [onAddAll_eq, liveSamplers_append, liveSamplers_flatMap_OnAdd]

/-- C7: `Run` starts the informer without having registered a handler, so whatever the initial
list and the watch deliver, no `OnAdd` call is made and no sampler starts; for the listed pod
`pod-1` under the empty filter `OnAdd` itself would start one, and an informer holding the
handler would deliver it. -/
theorem Run_registers_no_handler :
    (∀ (prm : PodResourceMonitor) (listed watchAdded : List Pod),
      PodResourceMonitor.Run prm listed watchAdded = []) ∧
    PodResourceMonitor.Run (New defaultNamespace defaultPodLabel) [listedPod] [] = [] ∧
    OnAdd (New defaultNamespace defaultPodLabel) listedPod = [listedPod] ∧
    (NewSharedInformer.AddEventHandler (OnAdd (New defaultNamespace defaultPodLabel))).Run
      [listedPod] [] = [listedPod] := by
  refine ⟨?_, ?_, by decide, by decide⟩
  · intro prm listed watchAdded
    simp [PodResourceMonitor.Run, SharedInformer.Run, NewSharedInformer]
  · simp [PodResourceMonitor.Run, SharedInformer.Run, NewSharedInformer]

/-- C8, as stated, fails: after the pod was reported deleted and the stop channel was closed,
the next tick whose fetch succeeds still writes the pod's samples. -/
theorem monitor_samples_after_cancellation :
    (monitorPodResourceUsage (New "default" "") fractionalPod
        [.podDeleted, .stopChClosed, .tickerFired servingClientset] freshSampler).writes =
      [ { metric := .pod_cpu_usage, labelValues := ["default", "pod-1", "c1"], value := 0 },
        { metric := .pod_memory_usage, labelValues := ["default", "pod-1", "c1"],
          value := 67108864 } ] := by
  decide

/-- C8, amended: the sampler has no cancellation path. A removed event or the closing of the
stop channel leaves its state and its loop untouched, so a run equals the run over its ticks
alone, and a tick with a successful fetch that comes after any such happenings appends the
samples of the fetched pod. -/
theorem monitor_ignores_cancellation (prm : PodResourceMonitor) (pod fetched : Pod)
    (before : List Happening) (clientset : Clientset) (s : SamplerState)
    (h : clientset.Get prm.Namespace pod.Name = .ok fetched) :
    monitorPodResourceUsage prm pod before s =
      monitorPodResourceUsage prm pod (before.filter Happening.isTick) s ∧
    monitorPodResourceUsage prm pod (.podDeleted :: before) s =
      monitorPodResourceUsage prm pod before s ∧
    monitorPodResourceUsage prm pod (.stopChClosed :: before) s =
      monitorPodResourceUsage prm pod before s ∧
    (monitorPodResourceUsage prm pod (before ++ [.tickerFired clientset]) s).writes =
      (monitorPodResourceUsage prm pod before s).writes ++ samplesOf prm fetched := by
  refine ⟨monitor_filter_isTick prm pod before s, rfl, rfl, ?_⟩
  rw [monitor_append]
  simp only [monitorPodResourceUsage]
  exact onTick_ok_writes prm pod fetched clientset _ h

/-- Instance for C8: deletion, stop, then a served tick. -/
theorem monitor_ignores_cancellation_witness :
    (monitorPodResourceUsage (New "default" "") listedPod
        ([.podDeleted, .stopChClosed] ++ [.tickerFired servingClientset]) freshSampler).writes =
      (monitorPodResourceUsage (New "default" "") listedPod
        [.podDeleted, .stopChClosed] freshSampler).writes ++
        samplesOf (New "default" "") fractionalPod :=
  (monitor_ignores_cancellation (New "default" "") listedPod fractionalPod
    [.podDeleted, .stopChClosed] servingClientset freshSampler rfl).2.2.2

end Monitor
